import Mathlib

/-!
Verification of the agent-lifecycle orchestration store (`agentStore`) and the
platform-label utility (`platformUtils`) of the Maestro repository.

The store's actions read and write an external session collection (a list of
session records) and call out to an external process-control boundary (IPC).
We embed the session records, the store actions and the IPC boundary shallowly:

* a session is a record with the error fields the actions touch;
* an action takes the session-store state, returns the new state, the list of
  external calls it issued (each tagged with whether the action awaited its
  settlement before returning), and whether the action completed normally or
  surfaced a failure (`Except Unit Unit`, `Except.error` = unhandled rejection);
* the outcome of each external call is given by an `oracle : ExtCall → Bool`
  (`true` = the call fails / the promise rejects); a `try`/`catch` in the
  source becomes `caughtCall`, an unguarded `await` passes the failure through.
-/

-- ============================================================================
-- Data model (from `../types` as used by the store and its tests)
-- ============================================================================

/-- The session lifecycle state enumeration (the store only ever writes
`idle`; `busy` and `error` occur in the collection it reads). -/
inductive SessionState where
  | idle
  | busy
  | error
  deriving DecidableEq, Repr, Inhabited

/-- An agent error descriptor: an error kind plus a message (the store never
inspects it, it only clears it). -/
structure AgentError where
  kind : String
  message : String
  deriving DecidableEq, Repr, Inhabited

/-- An AI tab of a session; it optionally carries its own error descriptor. -/
structure Tab where
  id : String
  agentError : Option AgentError := none
  saveToHistory : Bool := false
  showThinking : String := "off"
  deriving DecidableEq, Repr, Inhabited

/-- A session record with the fields the agent store reads and writes. -/
structure Session where
  id : String
  state : SessionState
  agentError : Option AgentError := none
  agentErrorTabId : Option String := none
  agentErrorPaused : Bool := false
  aiTabs : List Tab := []
  inputMode : String := "ai"
  deriving DecidableEq, Repr, Inhabited

/-- A cached agent configuration descriptor returned by detection. -/
structure AgentConfig where
  id : String
  name : String
  available : Bool := true
  command : String := ""
  deriving DecidableEq, Repr, Inhabited

/-- The slice of the external session store the agent store touches:
the session collection and the active session id. -/
structure SessionStoreState where
  sessions : List Session
  activeSessionId : String := ""
  deriving DecidableEq, Repr, Inhabited

/-- The agent store's own state: the detection cache. -/
structure AgentStoreState where
  availableAgents : List AgentConfig := []
  agentsDetected : Bool := false
  deriving DecidableEq, Repr, Inhabited

-- ============================================================================
-- The IPC boundary
-- ============================================================================

/-- An external (IPC) call the store can issue: `window.maestro.agents.detect`,
`window.maestro.process.kill`, `window.maestro.process.interrupt`, and
`window.maestro.agentError.clearError`. -/
inductive ExtCall where
  | detect (sshRemoteId : Option String)
  | kill (target : String)
  | interrupt (target : String)
  | clearError (sessionId : String)
  deriving DecidableEq, Repr

/-- One external call issued by an action, tagged with whether the action
awaited its settlement before returning (`await ...` versus a fire-and-forget
`promise.catch(...)`). -/
structure CallRecord where
  call : ExtCall
  awaited : Bool
  deriving DecidableEq, Repr

/-- The raw result of an external call under failure oracle `oracle`:
`oracle c = true` means the promise rejects. -/
def rawCall (oracle : ExtCall → Bool) (c : ExtCall) : Except Unit Unit :=
  if oracle c then Except.error () else Except.ok ()

/-- An external call wrapped in `try ... catch` that discards the failure:
the surrounding action always completes normally. -/
def caughtCall (oracle : ExtCall → Bool) (c : ExtCall) : Except Unit Unit :=
  match rawCall oracle c with
  | Except.error _ => Except.ok ()
  | Except.ok _ => Except.ok ()

/-- JavaScript truthiness of a `string | undefined` value: `undefined` and the
empty string are falsy, every other string is truthy. -/
def strOptTruthy : Option String → Bool
  | none => false
  | some s => !(s == "")

-- ============================================================================
-- Helpers (getSession / updateSession)
-- ============================================================================

/-- Find a session by ID from sessionStore
(`sessions.find((s) => s.id === sessionId)`). -/
def getSession (sessions : List Session) (sessionId : String) : Option Session :=
  sessions.find? (fun s => s.id == sessionId)

/-- Update a specific session in sessionStore using an updater function
(`prev.map((s) => (s.id === sessionId ? updater(s) : s))`). -/
def updateSession (sessions : List Session) (sessionId : String)
    (updater : Session → Session) : List Session :=
  sessions.map (fun s => if s.id = sessionId then updater s else s)

-- ============================================================================
-- Action results
-- ============================================================================

/-- What one store action does: the session-store state it leaves behind, the
external calls it issued in order, and whether it completed normally
(`Except.ok`) or surfaced a failure to its caller (`Except.error`). -/
structure ActionResult where
  store : SessionStoreState
  calls : List CallRecord
  outcome : Except Unit Unit

-- ============================================================================
-- Store actions
-- ============================================================================

/-- The per-session mutation of `clearAgentError`: reset the error fields, set
the lifecycle state to idle, and clear the target tab's error descriptor when
a truthy target tab id is available (`tabId ?? s.agentErrorTabId`). -/
def clearErrorUpdater (tabId : Option String) (s : Session) : Session :=
  let targetTabId : Option String :=
    match tabId with
    | some t => some t
    | none => s.agentErrorTabId
  let updatedAiTabs : List Tab :=
    if strOptTruthy targetTabId then
      s.aiTabs.map (fun tab =>
        if some tab.id = targetTabId then { tab with agentError := none } else tab)
    else s.aiTabs
  { s with
    agentError := none
    agentErrorTabId := none
    agentErrorPaused := false
    state := SessionState.idle
    aiTabs := updatedAiTabs }

/-- `clearAgentError(sessionId, tabId?)`: mutate the session, then notify the
main process with `window.maestro.agentError.clearError(sessionId)`; that call
is issued without `await` and its rejection is handled by an attached `.catch`
(which only logs), so the action itself always completes normally and the call
is issued whether or not the session exists. -/
def clearAgentError (oracle : ExtCall → Bool) (st : SessionStoreState)
    (sessionId : String) (tabId : Option String) : ActionResult :=
  let _ := caughtCall oracle (ExtCall.clearError sessionId)
  { store := { st with sessions := updateSession st.sessions sessionId (clearErrorUpdater tabId) }
    calls := [⟨ExtCall.clearError sessionId, false⟩]
    outcome := Except.ok () }

/-- Options forwarded to `createTab`. -/
structure CreateTabOptions where
  saveToHistory : Option Bool := none
  showThinking : Option String := none
  deriving DecidableEq, Repr, Inhabited

/-- The part of `createTab`'s result the store uses. -/
structure CreateTabResult where
  session : Session
  deriving DecidableEq, Repr

/-- Modelled from the spec: `createTab` lives in `../utils/tabHelpers`, which
is not among the repository files given; per the spec and the store's doc
comments it "creates a fresh AI tab" in the session (applying the forwarded
options to the new tab) and may fail, in which case the caller keeps the
session unchanged. It only adds a tab: the session's identity and the other
fields stay intact. -/
def createTab (s : Session) (options : CreateTabOptions) : Option CreateTabResult :=
  let tab : Tab :=
    { id := "tab-" ++ toString s.aiTabs.length
      agentError := none
      saveToHistory := options.saveToHistory.getD false
      showThinking := options.showThinking.getD "off" }
  some { session := { s with aiTabs := s.aiTabs ++ [tab] } }

/-- `startNewSessionAfterError(sessionId, options?)`: bail out when the
session does not exist; otherwise clear the error state and create a new tab
in the session. -/
def startNewSessionAfterError (oracle : ExtCall → Bool) (st : SessionStoreState)
    (sessionId : String) (options : CreateTabOptions) : ActionResult :=
  match getSession st.sessions sessionId with
  | none => { store := st, calls := [], outcome := Except.ok () }
  | some _ =>
    let r1 := clearAgentError oracle st sessionId none
    let sessions2 := updateSession r1.store.sessions sessionId (fun s =>
      match createTab s options with
      | none => s
      | some result => result.session)
    { store := { r1.store with sessions := sessions2 }
      calls := r1.calls
      outcome := Except.ok () }

/-- `retryAfterError(sessionId)`: delegates to `clearAgentError`. -/
def retryAfterError (oracle : ExtCall → Bool) (st : SessionStoreState)
    (sessionId : String) : ActionResult :=
  clearAgentError oracle st sessionId none

/-- `restartAgentAfterError(sessionId)`: bail out when the session does not
exist; otherwise clear the error state (which issues the unawaited
acknowledgment call) and then `await window.maestro.process.kill(sessionId + "-ai")`
inside `try`/`catch` (the process may not exist). -/
def restartAgentAfterError (oracle : ExtCall → Bool) (st : SessionStoreState)
    (sessionId : String) : ActionResult :=
  match getSession st.sessions sessionId with
  | none => { store := st, calls := [], outcome := Except.ok () }
  | some _ =>
    let r1 := clearAgentError oracle st sessionId none
    let killCall : ExtCall := ExtCall.kill (sessionId ++ "-ai")
    { store := r1.store
      calls := r1.calls ++ [⟨killCall, true⟩]
      outcome := caughtCall oracle killCall }

/-- `authenticateAfterError(sessionId)`: bail out when the session does not
exist; otherwise clear the error state, make the session active, and switch
its input mode to terminal for re-authentication. -/
def authenticateAfterError (oracle : ExtCall → Bool) (st : SessionStoreState)
    (sessionId : String) : ActionResult :=
  match getSession st.sessions sessionId with
  | none => { store := st, calls := [], outcome := Except.ok () }
  | some _ =>
    let r1 := clearAgentError oracle st sessionId none
    let st2 := { r1.store with activeSessionId := sessionId }
    let sessions3 := updateSession st2.sessions sessionId
      (fun s => { s with inputMode := "terminal" })
    { store := { st2 with sessions := sessions3 }
      calls := r1.calls
      outcome := Except.ok () }

/-- The target of a kill call:
`suffix ? sessionId + "-" + suffix : sessionId + "-ai"` — a truthiness check,
so an absent suffix and the empty-string suffix both yield `sessionId + "-ai"`. -/
def killTarget (sessionId : String) (suffix : Option String) : String :=
  if strOptTruthy suffix then sessionId ++ "-" ++ suffix.getD ""
  else sessionId ++ "-ai"

/-- `killAgent(sessionId, suffix?)`: `await window.maestro.process.kill(target)`
inside `try`/`catch`; the session collection is not consulted or changed. -/
def killAgent (oracle : ExtCall → Bool) (st : SessionStoreState)
    (sessionId : String) (suffix : Option String) : ActionResult :=
  let target := killTarget sessionId suffix
  { store := st
    calls := [⟨ExtCall.kill target, true⟩]
    outcome := caughtCall oracle (ExtCall.kill target) }

/-- `interruptAgent(sessionId)`:
`await window.maestro.process.interrupt(sessionId)` inside `try`/`catch`; the
session collection is not consulted or changed. -/
def interruptAgent (oracle : ExtCall → Bool) (st : SessionStoreState)
    (sessionId : String) : ActionResult :=
  { store := st
    calls := [⟨ExtCall.interrupt sessionId, true⟩]
    outcome := caughtCall oracle (ExtCall.interrupt sessionId) }

/-- `refreshAgents(sshRemoteId?)`: `await window.maestro.agents.detect(...)`
with no `try`/`catch`, then cache the result. The detect call's behaviour is a
parameter `detect`; a rejection propagates to the caller unchanged. -/
def refreshAgents (detect : Option String → Except Unit (List AgentConfig))
    (ast : AgentStoreState) (sshRemoteId : Option String) :
    Except Unit AgentStoreState × List CallRecord :=
  (match detect sshRemoteId with
   | Except.error e => Except.error e
   | Except.ok agents =>
     Except.ok { ast with availableAgents := agents, agentsDetected := true },
   [⟨ExtCall.detect sshRemoteId, true⟩])

/-- `getAgentConfig(agentId)`: look up a cached agent config by ID. -/
def getAgentConfig (ast : AgentStoreState) (agentId : String) : Option AgentConfig :=
  ast.availableAgents.find? (fun a => a.id == agentId)

-- ============================================================================
-- The platform-label utility (platformUtils.ts)
-- ============================================================================

/-- `getRevealLabel(platform)`: the platform-appropriate label for the
"reveal in file manager" action. -/
def getRevealLabel (platform : String) : String :=
  if platform = "win32" then "Reveal in Explorer"
  else if platform = "linux" then "Reveal in File Manager"
  else "Reveal in Finder"

-- ============================================================================
-- Concrete data for witnesses and counterexamples
-- ============================================================================

/-- An oracle under which every external call succeeds. -/
def oracleOk : ExtCall → Bool := fun _ => false

/-- An oracle under which every external call fails (rejects). -/
def oracleFail : ExtCall → Bool := fun _ => true

/-- A demo error descriptor. -/
def demoError : AgentError := { kind := "agent_crashed", message := "crash" }

/-- A demo tab carrying an error descriptor. -/
def demoTab : Tab := { id := "tab-1", agentError := some demoError }

/-- A demo session in the error state. -/
def demoSession : Session :=
  { id := "session-1"
    state := SessionState.error
    agentError := some demoError
    agentErrorTabId := some "tab-1"
    agentErrorPaused := true
    aiTabs := [demoTab] }

/-- A second demo session, busy and error-free. -/
def demoSession2 : Session :=
  { id := "session-2", state := SessionState.busy }

/-- A demo session-store state holding the two demo sessions. -/
def demoStore : SessionStoreState :=
  { sessions := [demoSession, demoSession2], activeSessionId := "session-1" }

/-- A detect behaviour that always rejects. -/
def detectFail : Option String → Except Unit (List AgentConfig) :=
  fun _ => Except.error ()

-- ============================================================================
-- Helper lemmas
-- ============================================================================

/-- A call wrapped in `try`/`catch` never surfaces a failure. -/
theorem caughtCall_eq_ok (oracle : ExtCall → Bool) (c : ExtCall) :
    caughtCall oracle c = Except.ok () := by
  unfold caughtCall rawCall
  cases oracle c <;> simp

/-- `updateSession` leaves the collection unchanged when no session has the
target id. -/
theorem updateSession_of_not_found (sessions : List Session) (sessionId : String)
    (u : Session → Session) (h : ∀ s ∈ sessions, s.id ≠ sessionId) :
    updateSession sessions sessionId u = sessions := by
  unfold updateSession
  induction sessions with
  | nil => rfl
  | cons a t ih =>
    have ha : a.id ≠ sessionId := h a (List.mem_cons_self a t)
    simp only [List.map_cons, if_neg ha]
    rw [ih (fun s hs => h s (List.mem_cons_of_mem a hs))]

/-- `getSession` finds nothing exactly when no session has the target id. -/
theorem getSession_eq_none_iff (sessions : List Session) (sessionId : String) :
    getSession sessions sessionId = none ↔ ∀ s ∈ sessions, s.id ≠ sessionId := by
  unfold getSession
  rw [List.find?_eq_none]
  constructor
  · intro h s hs
    have := h s hs
    simpa using this
  · intro h s hs
    simpa using h s hs

/-- An updater that preserves session ids makes `updateSession` preserve the
list of ids. -/
theorem updateSession_map_id (sessions : List Session) (sessionId : String)
    (u : Session → Session) (hu : ∀ s, (u s).id = s.id) :
    (updateSession sessions sessionId u).map Session.id = sessions.map Session.id := by
  unfold updateSession
  rw [List.map_map]
  apply List.map_congr_left
  intro s _
  by_cases hs : s.id = sessionId
  · simp [hs, hu]
  · simp [hs]

/-- `clearErrorUpdater` keeps the session's id. -/
theorem clearErrorUpdater_id (tabId : Option String) (s : Session) :
    (clearErrorUpdater tabId s).id = s.id := rfl

-- ============================================================================
-- Claim theorems
-- ============================================================================

/-- C1: for every session collection and target session id, every session the
call leaves in the collection under that id has its lifecycle state set to
idle, its error descriptor, offending-tab reference cleared and its paused
flag false — whatever error descriptor was present before. -/
theorem clearAgentError_resets_error_fields (oracle : ExtCall → Bool)
    (st : SessionStoreState) (sessionId : String) (tabId : Option String)
    (s' : Session)
    (h1 : s' ∈ (clearAgentError oracle st sessionId tabId).store.sessions)
    (h2 : s'.id = sessionId) :
    s'.state = SessionState.idle ∧ s'.agentError = none ∧
    s'.agentErrorTabId = none ∧ s'.agentErrorPaused = false := by
  simp only [clearAgentError, updateSession, List.mem_map] at h1
  obtain ⟨a, _, ha⟩ := h1
  by_cases hid : a.id = sessionId
  · rw [if_pos hid] at ha
    subst ha
    simp [clearErrorUpdater]
  · rw [if_neg hid] at ha
    subst ha
    exact absurd h2 hid

/-- C1 witness: clearing the error on the demo session (which carries an
`agent_crashed` descriptor, a tab reference and the paused flag) resets all
four fields. -/
theorem clearAgentError_resets_error_fields_witness :
    (clearErrorUpdater none demoSession).state = SessionState.idle ∧
    (clearErrorUpdater none demoSession).agentError = none ∧
    (clearErrorUpdater none demoSession).agentErrorTabId = none ∧
    (clearErrorUpdater none demoSession).agentErrorPaused = false :=
  clearAgentError_resets_error_fields oracleOk demoStore "session-1" none
    (clearErrorUpdater none demoSession) (by decide) (by decide)

/-- C5: clearing an error leaves every session at a position whose id differs
from the target exactly as it was. -/
theorem clearAgentError_frame (oracle : ExtCall → Bool) (st : SessionStoreState)
    (sessionId : String) (tabId : Option String) (i : Nat)
    (hne : (st.sessions.getD i default).id ≠ sessionId) :
    (clearAgentError oracle st sessionId tabId).store.sessions.getD i default
      = st.sessions.getD i default := by
  simp only [clearAgentError, updateSession]
  rcases h : st.sessions[i]? with _ | s
  · simp [List.getD_eq_getElem?_getD, List.getElem?_map, h]
  · have hd : st.sessions.getD i default = s := by
      simp [List.getD_eq_getElem?_getD, h]
    rw [hd] at hne
    simp [List.getD_eq_getElem?_getD, List.getElem?_map, h, hd, if_neg hne]

/-- C5 witness: clearing the error on `session-1` leaves the busy
`session-2` (position 1 of the demo collection) untouched. -/
theorem clearAgentError_frame_witness :
    (clearAgentError oracleOk demoStore "session-1" none).store.sessions.getD 1 default
      = demoStore.sessions.getD 1 default :=
  clearAgentError_frame oracleOk demoStore "session-1" none 1 (by decide)

/-- C6: a failed kill or interrupt call never propagates: under every failure
oracle, `killAgent`, `interruptAgent` and `restartAgentAfterError` complete
normally. -/
theorem kill_interrupt_restart_never_propagate (oracle : ExtCall → Bool)
    (st : SessionStoreState) (sessionId : String) (suffix : Option String) :
    (killAgent oracle st sessionId suffix).outcome = Except.ok () ∧
    (interruptAgent oracle st sessionId).outcome = Except.ok () ∧
    (restartAgentAfterError oracle st sessionId).outcome = Except.ok () := by
  refine ⟨?_, ?_, ?_⟩
  · simp [killAgent, caughtCall_eq_ok]
  · simp [interruptAgent, caughtCall_eq_ok]
  · unfold restartAgentAfterError
    cases getSession st.sessions sessionId <;> simp [caughtCall_eq_ok]

/-- C9: `getRevealLabel` is total on platform strings: `win32` maps to the
Explorer label, `linux` to the File Manager label, everything else to the
Finder label, and the result is always one of the three labels. -/
theorem getRevealLabel_platform_cases (p : String) :
    (p = "win32" → getRevealLabel p = "Reveal in Explorer") ∧
    (p = "linux" → getRevealLabel p = "Reveal in File Manager") ∧
    (p ≠ "win32" → p ≠ "linux" → getRevealLabel p = "Reveal in Finder") ∧
    (getRevealLabel p = "Reveal in Explorer" ∨
      getRevealLabel p = "Reveal in File Manager" ∨
      getRevealLabel p = "Reveal in Finder") := by
  unfold getRevealLabel
  by_cases h1 : p = "win32" <;> by_cases h2 : p = "linux" <;> simp [h1, h2]

/-- C10: the empty-string suffix is falsy, so `killAgent` with suffix `""`
issues the same kill call as with no suffix — targeting `sessionId ++ "-ai"`,
not `sessionId ++ "-"`. -/
theorem killAgent_empty_suffix_targets_ai (oracle : ExtCall → Bool)
    (st : SessionStoreState) (sessionId : String) :
    (killAgent oracle st sessionId (some "")).calls
      = [⟨ExtCall.kill (sessionId ++ "-ai"), true⟩] ∧
    (killAgent oracle st sessionId (some "")).calls
      = (killAgent oracle st sessionId none).calls ∧
    sessionId ++ "-ai" ≠ sessionId ++ "-" := by
  refine ⟨?_, ?_, ?_⟩
  · simp [killAgent, killTarget, strOptTruthy]
  · simp [killAgent, killTarget, strOptTruthy]
  · intro h
    have h2 := congrArg String.length h
    rw [String.length_append, String.length_append] at h2
    have h3 : ("-ai" : String).length = 3 := rfl
    have h4 : ("-" : String).length = 1 := rfl
    rw [h3, h4] at h2
    omega

/-- C4 counterexample: with the empty string given as suffix, the kill call
targets `"session-1-ai"`, not `"session-1-"` as the claim's reading
`sessionId + "-" + suffix` would demand. -/
theorem killAgent_empty_suffix_cex :
    (killAgent oracleOk demoStore "session-1" (some "")).calls
      ≠ [⟨ExtCall.kill "session-1-", true⟩] ∧
    (killAgent oracleOk demoStore "session-1" (some "")).calls
      = [⟨ExtCall.kill "session-1-ai", true⟩] := by
  constructor
  · decide
  · decide

/-- C4 (amended): `killAgent` with no suffix targets `sessionId ++ "-ai"`;
with a nonempty suffix it targets `sessionId ++ "-" ++ suffix`; the empty
suffix falls back to `sessionId ++ "-ai"`. -/
theorem killAgent_target_by_suffix (oracle : ExtCall → Bool)
    (st : SessionStoreState) (sessionId s : String) (hs : s ≠ "") :
    (killAgent oracle st sessionId none).calls
      = [⟨ExtCall.kill (sessionId ++ "-ai"), true⟩] ∧
    (killAgent oracle st sessionId (some s)).calls
      = [⟨ExtCall.kill (sessionId ++ "-" ++ s), true⟩] ∧
    (killAgent oracle st sessionId (some "")).calls
      = [⟨ExtCall.kill (sessionId ++ "-ai"), true⟩] := by
  refine ⟨?_, ?_, ?_⟩
  · simp [killAgent, killTarget, strOptTruthy]
  · simp [killAgent, killTarget, strOptTruthy, hs]
  · simp [killAgent, killTarget, strOptTruthy]

/-- C4 witness: the nonempty suffix `"terminal"` yields the kill target
`"session-1-terminal"`. -/
theorem killAgent_target_by_suffix_witness :
    (killAgent oracleOk demoStore "session-1" (some "terminal")).calls
      = [⟨ExtCall.kill "session-1-terminal", true⟩] :=
  ((killAgent_target_by_suffix oracleOk demoStore "session-1" "terminal"
    (by decide)).2.1).trans (by decide)

/-- C2 counterexample: on an empty collection (so the session id matches no
session) `clearAgentError` still issues the error-acknowledgment IPC call —
the action is not a no-op on the external boundary. -/
theorem clearAgentError_missing_session_still_calls :
    getSession ([] : List Session) "session-1" = none ∧
    (clearAgentError oracleOk { sessions := [] } "session-1" none).calls ≠ [] := by
  constructor
  · rfl
  · decide

/-- C2 (amended): on a session id matching no session, no action mutates the
collection, and `startNewSessionAfterError`, `restartAgentAfterError` and
`authenticateAfterError` issue no external call; but `clearAgentError`,
`retryAfterError`, `killAgent` and `interruptAgent` still issue their
external call. -/
theorem actions_on_missing_session (oracle : ExtCall → Bool)
    (st : SessionStoreState) (sessionId : String) (tabId suffix : Option String)
    (options : CreateTabOptions)
    (h : getSession st.sessions sessionId = none) :
    ((startNewSessionAfterError oracle st sessionId options).store = st ∧
      (startNewSessionAfterError oracle st sessionId options).calls = []) ∧
    ((restartAgentAfterError oracle st sessionId).store = st ∧
      (restartAgentAfterError oracle st sessionId).calls = []) ∧
    ((authenticateAfterError oracle st sessionId).store = st ∧
      (authenticateAfterError oracle st sessionId).calls = []) ∧
    ((clearAgentError oracle st sessionId tabId).store = st ∧
      (clearAgentError oracle st sessionId tabId).calls
        = [⟨ExtCall.clearError sessionId, false⟩]) ∧
    ((retryAfterError oracle st sessionId).store = st ∧
      (retryAfterError oracle st sessionId).calls
        = [⟨ExtCall.clearError sessionId, false⟩]) ∧
    ((killAgent oracle st sessionId suffix).store = st ∧
      (killAgent oracle st sessionId suffix).calls
        = [⟨ExtCall.kill (killTarget sessionId suffix), true⟩]) ∧
    ((interruptAgent oracle st sessionId).store = st ∧
      (interruptAgent oracle st sessionId).calls
        = [⟨ExtCall.interrupt sessionId, true⟩]) := by
  have hno : ∀ s ∈ st.sessions, s.id ≠ sessionId :=
    (getSession_eq_none_iff _ _).mp h
  have hcl : ∀ tid, (clearAgentError oracle st sessionId tid).store = st := by
    intro tid
    show ({ st with
      sessions := updateSession st.sessions sessionId (clearErrorUpdater tid) }
        : SessionStoreState) = st
    rw [updateSession_of_not_found _ _ _ hno]
  refine ⟨?_, ?_, ?_, ⟨hcl tabId, rfl⟩, ⟨hcl none, rfl⟩, ⟨rfl, rfl⟩, ⟨rfl, rfl⟩⟩
  · unfold startNewSessionAfterError
    rw [h]
    exact ⟨rfl, rfl⟩
  · unfold restartAgentAfterError
    rw [h]
    exact ⟨rfl, rfl⟩
  · unfold authenticateAfterError
    rw [h]
    exact ⟨rfl, rfl⟩

/-- C2 witness: on an empty collection, `killAgent` leaves the store as it is
but still issues the kill call. -/
theorem actions_on_missing_session_witness :
    (killAgent oracleOk { sessions := [] } "ghost" none).store
      = { sessions := [] } ∧
    (killAgent oracleOk { sessions := [] } "ghost" none).calls
      = [⟨ExtCall.kill (killTarget "ghost" none), true⟩] :=
  (actions_on_missing_session oracleOk { sessions := [] } "ghost" none none
    {} rfl).2.2.2.2.2.1

/-- C3 counterexample: `refreshAgents` does not guard its `detect` call, so a
rejecting detect surfaces to the caller as a failure. -/
theorem refreshAgents_surfaces_detect_failure :
    (refreshAgents detectFail {} none).1 = Except.error () := rfl

/-- C3 (amended): failures of the kill, interrupt and error-acknowledgment
calls are caught at the call site and discarded, so those actions complete
normally under every failure oracle; but `refreshAgents` passes a failing
detect call through to its caller. -/
theorem failures_caught_except_detect (oracle : ExtCall → Bool)
    (st : SessionStoreState) (sessionId : String) (tabId suffix : Option String)
    (options : CreateTabOptions)
    (detect : Option String → Except Unit (List AgentConfig))
    (ast : AgentStoreState) (sshRemoteId : Option String) (e : Unit)
    (hdet : detect sshRemoteId = Except.error e) :
    (clearAgentError oracle st sessionId tabId).outcome = Except.ok () ∧
    (startNewSessionAfterError oracle st sessionId options).outcome = Except.ok () ∧
    (retryAfterError oracle st sessionId).outcome = Except.ok () ∧
    (restartAgentAfterError oracle st sessionId).outcome = Except.ok () ∧
    (authenticateAfterError oracle st sessionId).outcome = Except.ok () ∧
    (killAgent oracle st sessionId suffix).outcome = Except.ok () ∧
    (interruptAgent oracle st sessionId).outcome = Except.ok () ∧
    (refreshAgents detect ast sshRemoteId).1 = Except.error e := by
  refine ⟨rfl, ?_, rfl, ?_, ?_, ?_, ?_, ?_⟩
  · unfold startNewSessionAfterError
    cases getSession st.sessions sessionId <;> rfl
  · unfold restartAgentAfterError
    cases getSession st.sessions sessionId <;> simp [caughtCall_eq_ok]
  · unfold authenticateAfterError
    cases getSession st.sessions sessionId <;> rfl
  · simp [killAgent, caughtCall_eq_ok]
  · simp [interruptAgent, caughtCall_eq_ok]
  · simp [refreshAgents, hdet]

/-- C3 witness: with every call failing, `killAgent` still completes
normally, while `refreshAgents` surfaces the detect failure. -/
theorem failures_caught_except_detect_witness :
    (killAgent oracleFail { sessions := [] } "session-1" none).outcome
      = Except.ok () ∧
    (refreshAgents detectFail {} none).1 = Except.error () := by
  have h := failures_caught_except_detect oracleFail { sessions := [] }
    "session-1" none none {} detectFail {} none () rfl
  exact ⟨h.2.2.2.2.2.1, h.2.2.2.2.2.2.2⟩

/-- Whether an external call is the error-acknowledgment (`clearError`) call. -/
def isClearErrorCall : ExtCall → Bool
  | ExtCall.clearError _ => true
  | _ => false

/-- The call discipline the actions actually follow: at most two external
calls per action, and a call is awaited exactly when it is not the
fire-and-forget error-acknowledgment call. -/
def callDiscipline (calls : List CallRecord) : Prop :=
  calls.length ≤ 2 ∧
  calls.all (fun r => r.awaited == !isClearErrorCall r.call) = true

/-- C7 counterexample: `restartAgentAfterError` on an existing session issues
two external calls, and the first (the error acknowledgment) is not awaited
before the action returns — so neither "at most one outstanding external
call" nor "awaits that call's settlement before returning" holds. -/
theorem restartAgent_two_calls_first_unawaited :
    (restartAgentAfterError oracleOk demoStore "session-1").calls.length = 2 ∧
    (restartAgentAfterError oracleOk demoStore "session-1").calls.map
      CallRecord.awaited = [false, true] := by
  constructor
  · decide
  · decide

/-- C7 (amended): every action issues at most two external calls; the detect,
kill and interrupt calls are awaited before the action returns, while the
error-acknowledgment call is issued without awaiting its settlement. -/
theorem actions_call_discipline (oracle : ExtCall → Bool)
    (detect : Option String → Except Unit (List AgentConfig))
    (ast : AgentStoreState) (st : SessionStoreState) (sessionId : String)
    (tabId suffix : Option String) (options : CreateTabOptions)
    (sshRemoteId : Option String) :
    callDiscipline (clearAgentError oracle st sessionId tabId).calls ∧
    callDiscipline (startNewSessionAfterError oracle st sessionId options).calls ∧
    callDiscipline (retryAfterError oracle st sessionId).calls ∧
    callDiscipline (restartAgentAfterError oracle st sessionId).calls ∧
    callDiscipline (authenticateAfterError oracle st sessionId).calls ∧
    callDiscipline (killAgent oracle st sessionId suffix).calls ∧
    callDiscipline (interruptAgent oracle st sessionId).calls ∧
    callDiscipline (refreshAgents detect ast sshRemoteId).2 := by
  have hone : ∀ sid : String, callDiscipline [⟨ExtCall.clearError sid, false⟩] := by
    intro sid
    simp [callDiscipline, isClearErrorCall]
  have hnil : callDiscipline [] := by simp [callDiscipline]
  refine ⟨hone sessionId, ?_, hone sessionId, ?_, ?_, ?_, ?_, ?_⟩
  · unfold startNewSessionAfterError
    cases getSession st.sessions sessionId with
    | none => exact hnil
    | some s => exact hone sessionId
  · unfold restartAgentAfterError
    cases getSession st.sessions sessionId with
    | none => exact hnil
    | some s => simp [callDiscipline, clearAgentError, isClearErrorCall]
  · unfold authenticateAfterError
    cases getSession st.sessions sessionId with
    | none => exact hnil
    | some s => exact hone sessionId
  · simp [callDiscipline, killAgent, isClearErrorCall]
  · simp [callDiscipline, interruptAgent, isClearErrorCall]
  · simp [callDiscipline, refreshAgents, isClearErrorCall]

/-- C8: no action creates or destroys a session record: each leaves the list
of session ids (in order, so in particular as a multiset) unchanged. -/
theorem actions_preserve_session_ids (oracle : ExtCall → Bool)
    (st : SessionStoreState) (sessionId : String) (tabId suffix : Option String)
    (options : CreateTabOptions) :
    (clearAgentError oracle st sessionId tabId).store.sessions.map Session.id
      = st.sessions.map Session.id ∧
    (startNewSessionAfterError oracle st sessionId options).store.sessions.map
      Session.id = st.sessions.map Session.id ∧
    (retryAfterError oracle st sessionId).store.sessions.map Session.id
      = st.sessions.map Session.id ∧
    (restartAgentAfterError oracle st sessionId).store.sessions.map Session.id
      = st.sessions.map Session.id ∧
    (authenticateAfterError oracle st sessionId).store.sessions.map Session.id
      = st.sessions.map Session.id ∧
    (killAgent oracle st sessionId suffix).store.sessions.map Session.id
      = st.sessions.map Session.id ∧
    (interruptAgent oracle st sessionId).store.sessions.map Session.id
      = st.sessions.map Session.id := by
  have hclear : ∀ (l : List Session) (tid : Option String),
      (updateSession l sessionId (clearErrorUpdater tid)).map Session.id
        = l.map Session.id :=
    fun l tid => updateSession_map_id l sessionId _ (clearErrorUpdater_id tid)
  refine ⟨hclear st.sessions tabId, ?_, hclear st.sessions none, ?_, ?_, rfl, rfl⟩
  · unfold startNewSessionAfterError
    cases getSession st.sessions sessionId with
    | none => rfl
    | some s =>
      refine Eq.trans (updateSession_map_id _ sessionId _ ?_)
        (hclear st.sessions none)
      intro s'
      rfl
  · unfold restartAgentAfterError
    cases getSession st.sessions sessionId with
    | none => rfl
    | some s => exact hclear st.sessions none
  · unfold authenticateAfterError
    cases getSession st.sessions sessionId with
    | none => rfl
    | some s =>
      refine Eq.trans (updateSession_map_id _ sessionId _ ?_)
        (hclear st.sessions none)
      intro s'
      rfl
